import Mathlib

/-!
# BrandStreet: verification of the scoring and settlement core

Shallow embedding of the two source files of the repository:

* `brand_exchange_pytrends_api.py` — the metric pipeline: anchor
  normalization, growth metrics (`get_growth_metrics`), and the composite
  BES score (`final_bes`).
* `app.py` — the ledger engine: the "Confirm Stake" and "Confirm Sell"
  Streamlit handlers operating on the `profiles` and `ledger` tables.

Numbers are modelled as rationals (`ℚ`); Python's `round(x, 2)` is
modelled exactly as round-half-to-even on `x * 100`.
-/

/-- Python's `round` to an integer: round half to even (banker's rounding). -/
def pyRoundHalfEven (q : ℚ) : ℤ :=
  if q - ⌊q⌋ < 1/2 then ⌊q⌋
  else if 1/2 < q - ⌊q⌋ then ⌊q⌋ + 1
  else if ⌊q⌋ % 2 = 0 then ⌊q⌋ else ⌊q⌋ + 1

/-- Python's `round(x, 2)`: two decimal places, ties to even. -/
def pyRound2 (q : ℚ) : ℚ := (pyRoundHalfEven (q * 100) : ℚ) / 100

/-- Mean of a list of rationals, `pandas.Series.mean` on a series. -/
def seriesMean (l : List ℚ) : ℚ := l.sum / l.length

/-- `data[ANCHOR_KEYWORD].replace(0, 1)` (line 71 of
`brand_exchange_pytrends_api.py`): every zero in the anchor series is
replaced by `1` before the anchor column is used as a divisor. -/
def replaceZeroWithOne (anchor : List ℚ) : List ℚ :=
  anchor.map (fun a => if a = 0 then 1 else a)

/-- `norm_series = (data[kw] / data[ANCHOR_KEYWORD]) * 50` (line 75),
after the zero replacement has been applied to the anchor column. -/
def normalizeSeries (target anchor : List ℚ) : List ℚ :=
  List.zipWith (fun t a => t / a * 50) target (replaceZeroWithOne anchor)

/-- The per-keyword metrics record `{"Volume": _, "PoP": _, "YoY": _}`. -/
structure Metrics where
  volume : ℚ
  pop : ℚ
  yoy : ℚ
deriving DecidableEq, Repr

/-- The per-series body of `get_growth_metrics` (lines 77–88 of
`brand_exchange_pytrends_api.py`): if the normalized series has at least 52
samples, `curr` is the mean of `iloc[-2:]`, `prev` the mean of
`iloc[-4:-2]`, `yoy_val` the mean of `iloc[:2]`; each growth percentage
falls back to `0` when its divisor is not positive; all three outputs are
rounded to two decimals.  A shorter series yields the zero-metrics
record. -/
def seriesMetrics (norm : List ℚ) : Metrics :=
  if 52 ≤ norm.length then
    let curr := seriesMean (norm.drop (norm.length - 2))
    let prev := seriesMean ((norm.drop (norm.length - 4)).take 2)
    let yoyVal := seriesMean (norm.take 2)
    let pop := if 0 < prev then (curr - prev) / prev * 100 else 0
    let yoy := if 0 < yoyVal then (curr - yoyVal) / yoyVal * 100 else 0
    { volume := pyRound2 curr, pop := pyRound2 pop, yoy := pyRound2 yoy }
  else
    { volume := 0, pop := 0, yoy := 0 }

/-- `final_bes` (lines 136–137 of `brand_exchange_pytrends_api.py`):
`raw_bes = Volume*0.4 + PoP*0.3 + YoY*0.1 + 50`, rounded to two decimals;
no clamping to `[0, 100]` is applied. -/
def final_bes (volume pop yoy : ℚ) : ℚ :=
  pyRound2 (volume * (4/10) + pop * (3/10) + yoy * (1/10) + 50)

/-! ## The batched fetch loop of `get_growth_metrics` (lines 51–96)

A batch's upstream fetch (`build_payload` + `interest_over_time`) is
modelled by pre-pairing each batch with its fetch outcome: `none` when the
fetch raises (the `except` branch: the error is printed, a 60 s cooldown is
slept, and the loop continues with the next batch) and `some data` when it
returns a frame, `data` being the list of `(column, series)` pairs.  The
run also counts fetch attempts: the loop body performs exactly one fetch
per iteration. -/

/-- `ANCHOR_KEYWORD = "Nifty 50"`. -/
def ANCHOR_KEYWORD : String := "Nifty 50"

/-- The per-batch body (lines 70–88): the anchor column has its zeros
replaced, and each keyword of the batch that is present among the columns
gets `metrics_map[kw] = seriesMetrics(normalized series)`; keywords absent
from the frame are skipped. -/
def processBatch (data : List (String × List ℚ)) (batch : List String)
    (m : String → Option Metrics) : String → Option Metrics :=
  batch.foldl
    (fun acc kw =>
      match data.lookup kw with
      | some raw =>
          fun k =>
            if k = kw then
              some (seriesMetrics
                (normalizeSeries raw ((data.lookup ANCHOR_KEYWORD).getD [])))
            else acc k
      | none => acc)
    m

/-- One iteration of the batch loop (lines 60–94), threading the
`metrics_map` and the count of fetch attempts: a failed fetch (`none`) is
caught and contributes nothing; an empty frame hits the
`if data.empty: continue`; otherwise the batch is processed. -/
def syncStep (acc : (String → Option Metrics) × ℕ)
    (fb : Option (List (String × List ℚ)) × List String) :
    (String → Option Metrics) × ℕ :=
  match fb.1 with
  | none => (acc.1, acc.2 + 1)
  | some data =>
      if data = [] then (acc.1, acc.2 + 1)
      else (processBatch data fb.2 acc.1, acc.2 + 1)

/-- `get_growth_metrics`: fold of the batch loop over the chunked keyword
list, starting from the empty `metrics_map = {}` and zero fetch attempts. -/
def get_growth_metrics
    (fetches : List (Option (List (String × List ℚ)) × List String)) :
    (String → Option Metrics) × ℕ :=
  fetches.foldl syncStep (fun _ => none, 0)

/-! ## The ledger engine (`app.py`)

`profiles.points_balance` for the logged-in user and the `ledger` table
restricted to rows visible to the handlers.  Amounts are integers
(`st.number_input` with integer `min_value`/`step`). -/

/-- The `status` column of a ledger row. -/
inductive EntryStatus where
  | ACTIVE
  | CLOSED
deriving DecidableEq, Repr

/-- One row of the `ledger` table, with the columns the handlers write. -/
structure LedgerEntry where
  user_id : ℕ
  brand_id : ℕ
  amount_staked : ℤ
  entry_bes : ℚ
  thesis_tag : String
  status : EntryStatus
deriving DecidableEq, Repr

/-- The store state the two handlers read and write: the logged-in user's
`points_balance` and the `ledger` table (new rows are appended). -/
structure Store where
  points_balance : ℤ
  ledger : List LedgerEntry
deriving DecidableEq, Repr

/-- Rejections surfaced by the trading handlers: `st.error("Insufficient
funds!")` on stake; on sell, the `st.warning` shown when the active total
is zero, and the `number_input` bound that caps the sell amount at the
active total. -/
inductive TradeError where
  | insufficientFunds
  | noHoldings
  | exceedsHoldings
deriving DecidableEq, Repr

/-- The holdings query of the sell branch (line 121 of `app.py`):
ledger rows of this user and brand with `status = 'ACTIVE'`. -/
def holdings (s : Store) (uid bid : ℕ) : List LedgerEntry :=
  s.ledger.filter
    (fun e => e.user_id = uid ∧ e.brand_id = bid ∧ e.status = .ACTIVE)

/-- `total_invested = sum(h['amount_staked'] for h in holdings)` (line 122). -/
def totalInvested (s : Store) (uid bid : ℕ) : ℤ :=
  ((holdings s uid bid).map (fun e => e.amount_staked)).sum

/-- The "Confirm Stake" handler (lines 98–116 of `app.py`): if
`points_balance >= amount`, one ACTIVE ledger row is inserted with
`entry_bes` the brand's current score, and the balance becomes
`points_balance - amount`; otherwise "Insufficient funds!" is shown and
nothing is written.  Returns the resulting store and the rejection, if
any. -/
def confirmStake (s : Store) (uid bid : ℕ) (amount : ℤ) (bes : ℚ)
    (thesis : String) : Store × Option TradeError :=
  if amount ≤ s.points_balance then
    ({ points_balance := s.points_balance - amount,
       ledger := s.ledger ++
         [{ user_id := uid, brand_id := bid, amount_staked := amount,
            entry_bes := bes, thesis_tag := thesis, status := .ACTIVE }] },
     none)
  else (s, some .insufficientFunds)

/-- The "Confirm Sell" handler (lines 119–156 of `app.py`).  The sell UI is
reachable only when `total_invested > 0` (otherwise the "You don't own any
of this asset" warning is shown and nothing happens), and the
`st.number_input("Amount to Sell", min_value=0, max_value=total_invested)`
widget confines the submitted amount to `0 ≤ amount ≤ total_invested`.
Within those bounds the handler credits `points_balance + amount` and
inserts one ledger row `{amount_staked: -amount, entry_bes: bes,
thesis_tag: "CASH_OUT", status: CLOSED}`.  No existing row is modified:
in particular the ACTIVE rows being cashed out keep their status. -/
def confirmSell (s : Store) (uid bid : ℕ) (amount : ℤ) (bes : ℚ) :
    Store × Option TradeError :=
  if 0 < totalInvested s uid bid then
    if 0 ≤ amount ∧ amount ≤ totalInvested s uid bid then
      ({ points_balance := s.points_balance + amount,
         ledger := s.ledger ++
           [{ user_id := uid, brand_id := bid, amount_staked := -amount,
              entry_bes := bes, thesis_tag := "CASH_OUT",
              status := .CLOSED }] },
       none)
    else (s, some .exceedsHoldings)
  else (s, some .noHoldings)

/-- The stake handler's two store writes taken separately (lines 100–111 of
`app.py`): the ledger insert and the balance update are two independent
network calls with no transaction and no rollback.  `insertOk` and
`updateOk` say whether each call succeeds; a raising insert aborts the
handler before the balance update is attempted. -/
def confirmStakeTwoWrites (insertOk updateOk : Bool) (s : Store)
    (uid bid : ℕ) (amount : ℤ) (bes : ℚ) (thesis : String) : Store :=
  if amount ≤ s.points_balance then
    if insertOk then
      let s1 : Store :=
        { s with ledger := s.ledger ++
            [{ user_id := uid, brand_id := bid, amount_staked := amount,
               entry_bes := bes, thesis_tag := thesis, status := .ACTIVE }] }
      if updateOk then { s1 with points_balance := s.points_balance - amount }
      else s1
    else s
  else s

/-- The sell handler's two store writes taken separately (lines 137–150 of
`app.py`): the balance update runs first, then the ledger insert, again as
independent calls; a raising balance update aborts before the insert. -/
def confirmSellTwoWrites (updateOk insertOk : Bool) (s : Store)
    (uid bid : ℕ) (amount : ℤ) (bes : ℚ) : Store :=
  if 0 < totalInvested s uid bid ∧ 0 ≤ amount ∧
      amount ≤ totalInvested s uid bid then
    if updateOk then
      let s1 : Store := { s with points_balance := s.points_balance + amount }
      if insertOk then
        { s1 with ledger := s1.ledger ++
            [{ user_id := uid, brand_id := bid, amount_staked := -amount,
               entry_bes := bes, thesis_tag := "CASH_OUT",
               status := .CLOSED }] }
      else s1
    else s
  else s

/-- The stake handler as it actually runs under concurrency: the balance it
checks and the `new_bal` it writes come from the page-load snapshot
`current_user['points_balance']` (lines 99 and 110 of `app.py`), not from
the stored balance at commit time; the update at line 111 overwrites the
stored balance with `snapshot - amount`. -/
def stakeFromSnapshot (snapshotBal : ℤ) (s : Store) (uid bid : ℕ)
    (amount : ℤ) (bes : ℚ) (thesis : String) : Store × Option TradeError :=
  if amount ≤ snapshotBal then
    ({ points_balance := snapshotBal - amount,
       ledger := s.ledger ++
         [{ user_id := uid, brand_id := bid, amount_staked := amount,
            entry_bes := bes, thesis_tag := thesis, status := .ACTIVE }] },
     none)
  else (s, some .insufficientFunds)

/-! ## Spec-side formulation of the growth calculator

Written from the spec's words ("current = mean(last 2 points)", "previous =
mean(points [-4:-2])", "yoy_baseline = mean(first 2 points)") in terms of
positional indexing, to be compared with `seriesMetrics` above. -/

/-- Spec: `current = mean(last 2 points)`, as the two final positions. -/
def growthSpecCurrent (l : List ℚ) : ℚ :=
  (l.getD (l.length - 2) 0 + l.getD (l.length - 1) 0) / 2

/-- Spec: `previous = mean(points [-4:-2])`, as positions `n-4` and `n-3`. -/
def growthSpecPrevious (l : List ℚ) : ℚ :=
  (l.getD (l.length - 4) 0 + l.getD (l.length - 3) 0) / 2

/-- Spec: `yoy_baseline = mean(first 2 points)`. -/
def growthSpecYoyBaseline (l : List ℚ) : ℚ := (l.getD 0 0 + l.getD 1 0) / 2

/-- Spec: `(current - baseline) / baseline * 100` when the baseline is
positive, else `0`. -/
def growthSpecPct (c b : ℚ) : ℚ := if 0 < b then (c - b) / b * 100 else 0

/-! ### Window lemmas: the slices taken by the code are the spec's points -/

theorem drop_length_sub_two {α : Type} (l : List α) (d : α)
    (h : 2 ≤ l.length) :
    l.drop (l.length - 2) = [l.getD (l.length - 2) d, l.getD (l.length - 1) d] := by
  have h2 : l.length - 2 < l.length := by omega
  have h1 : l.length - 1 < l.length := by omega
  rw [List.drop_eq_getElem_cons h2,
    show l.length - 2 + 1 = l.length - 1 from by omega,
    List.drop_eq_getElem_cons h1,
    show l.length - 1 + 1 = l.length from by omega, List.drop_length,
    List.getD_eq_getElem _ _ h2, List.getD_eq_getElem _ _ h1]

theorem drop_length_sub_four_take_two {α : Type} (l : List α) (d : α)
    (h : 4 ≤ l.length) :
    (l.drop (l.length - 4)).take 2 =
      [l.getD (l.length - 4) d, l.getD (l.length - 3) d] := by
  have h4 : l.length - 4 < l.length := by omega
  have h3 : l.length - 3 < l.length := by omega
  rw [List.drop_eq_getElem_cons h4,
    show l.length - 4 + 1 = l.length - 3 from by omega,
    List.drop_eq_getElem_cons h3,
    List.getD_eq_getElem _ _ h4, List.getD_eq_getElem _ _ h3]
  rfl

theorem take_two_eq_getD {α : Type} (l : List α) (d : α) (h : 2 ≤ l.length) :
    l.take 2 = [l.getD 0 d, l.getD 1 d] := by
  match l with
  | [] => simp at h
  | [a] => simp at h
  | a :: b :: t => simp [List.getD]

theorem seriesMean_pair (a b : ℚ) : seriesMean [a, b] = (a + b) / 2 := by
  simp [seriesMean]

/-- C5: the growth-metrics computation returns `{0, 0, 0}` on a series of
fewer than 52 samples; on 52 or more samples it returns the rounded mean of
the last two points as volume, and the guarded, rounded PoP and YoY
percentages computed from the windows `[-4:-2]` and `[:2]`. -/
theorem c5_growth_metrics_spec (l : List ℚ) :
    (l.length < 52 → seriesMetrics l = { volume := 0, pop := 0, yoy := 0 }) ∧
    (52 ≤ l.length →
      seriesMetrics l =
        { volume := pyRound2 (growthSpecCurrent l),
          pop := pyRound2 (growthSpecPct (growthSpecCurrent l)
            (growthSpecPrevious l)),
          yoy := pyRound2 (growthSpecPct (growthSpecCurrent l)
            (growthSpecYoyBaseline l)) }) := by
  constructor
  · intro h
    simp only [seriesMetrics]
    rw [if_neg (by omega)]
  · intro h
    simp only [seriesMetrics]
    rw [if_pos h, drop_length_sub_two l 0 (by omega),
      drop_length_sub_four_take_two l 0 (by omega),
      take_two_eq_getD l 0 (by omega), seriesMean_pair, seriesMean_pair,
      seriesMean_pair]
    rfl

/-- Witness for C5 at the concrete 52-sample series `[10, 10, …, 10]`. -/
theorem c5_growth_metrics_spec_witness :
    52 ≤ (List.replicate 52 (10 : ℚ)).length ∧
    seriesMetrics (List.replicate 52 (10 : ℚ)) =
      { volume := pyRound2 (growthSpecCurrent (List.replicate 52 (10 : ℚ))),
        pop := pyRound2 (growthSpecPct
          (growthSpecCurrent (List.replicate 52 (10 : ℚ)))
          (growthSpecPrevious (List.replicate 52 (10 : ℚ)))),
        yoy := pyRound2 (growthSpecPct
          (growthSpecCurrent (List.replicate 52 (10 : ℚ)))
          (growthSpecYoyBaseline (List.replicate 52 (10 : ℚ)))) } :=
  ⟨by simp, (c5_growth_metrics_spec (List.replicate 52 (10 : ℚ))).2 (by simp)⟩

/-- The series of the spec's worked example: `[10]*48 + [20, 20, 40, 40]`. -/
def specExampleSeries : List ℚ := List.replicate 48 10 ++ [20, 20, 40, 40]

/-- C6 counterexample: on `[10]*48 + [20, 20, 40, 40]` the code's previous
window `iloc[-4:-2]` is `[20, 20]`, not a mean-30 window, so PoP is not
33.33. -/
theorem c6_pop_counterexample :
    (seriesMetrics specExampleSeries).pop ≠ 3333/100 := by
  norm_num [seriesMetrics, specExampleSeries, seriesMean, pyRound2,
    pyRoundHalfEven, List.replicate]

/-- C6 amended: on that series the previous-window mean is 20 and the
current-window mean is 40, so the growth calculator produces
`PoP = (40 - 20) / 20 * 100 = 100`. -/
theorem c6_pop_amended :
    (seriesMetrics specExampleSeries).pop = 100 ∧
    seriesMean ((specExampleSeries.drop (specExampleSeries.length - 4)).take 2)
      = 20 ∧
    seriesMean (specExampleSeries.drop (specExampleSeries.length - 2)) = 40 := by
  refine ⟨?_, ?_, ?_⟩ <;>
    norm_num [seriesMetrics, specExampleSeries, seriesMean, pyRound2,
      pyRoundHalfEven, List.replicate]

/-- C7: the composite score is exactly
`volume*0.4 + PoP*0.3 + YoY*0.1 + 50` rounded to two decimals, and it is
not clamped to `[0, 100]`: an input pushing the result past 100 (or below
0) yields the unclamped value. -/
theorem c7_final_bes_spec :
    (∀ volume pop yoy : ℚ,
      final_bes volume pop yoy =
        pyRound2 (volume * (4/10) + pop * (3/10) + yoy * (1/10) + 50)) ∧
    final_bes 200 0 0 = 130 ∧ 100 < final_bes 200 0 0 ∧
    final_bes (-200) 0 0 = -30 ∧ final_bes (-200) 0 0 < 0 := by
  refine ⟨fun _ _ _ => rfl, ?_, ?_, ?_, ?_⟩ <;>
    norm_num [final_bes, pyRound2, pyRoundHalfEven]

/-- C8: after the zero replacement, no element of the anchor series is
zero, and the normalizer divides each target sample exactly by the
corresponding replaced anchor sample (so it never divides by zero). -/
theorem c8_anchor_no_zero_divisor (anchor : List ℚ) :
    (∀ x ∈ replaceZeroWithOne anchor, x ≠ 0) ∧
    (∀ target, normalizeSeries target anchor =
      List.zipWith (fun t a => t / a * 50) target
        (replaceZeroWithOne anchor)) := by
  constructor
  · intro x hx
    simp only [replaceZeroWithOne, List.mem_map] at hx
    obtain ⟨a, _, ha⟩ := hx
    by_cases h0 : a = 0
    · rw [if_pos h0] at ha
      rw [← ha]
      norm_num
    · rw [if_neg h0] at ha
      rw [← ha]
      exact h0
  · intro target
    rfl

/-- Witness for C8 at the concrete anchor `[0, 5]`: the zero sample has
become the nonzero divisor `1`. -/
theorem c8_anchor_no_zero_divisor_witness :
    ((1 : ℚ) ∈ replaceZeroWithOne [0, 5]) ∧ (1 : ℚ) ≠ 0 :=
  ⟨by norm_num [replaceZeroWithOne],
   (c8_anchor_no_zero_divisor [0, 5]).1 1 (by norm_num [replaceZeroWithOne])⟩

/-- The snapshot model applied at the stored balance coincides with the
sequential "Confirm Stake" handler. -/
theorem stakeFromSnapshot_at_current_balance (s : Store) (uid bid : ℕ)
    (amount : ℤ) (bes : ℚ) (thesis : String) :
    stakeFromSnapshot s.points_balance s uid bid amount bes thesis =
      confirmStake s uid bid amount bes thesis := rfl

/-- C3: a stake of more than the balance is rejected with the insufficient
funds error and mutates nothing; a positive stake within the balance
debits the balance by exactly the amount and appends exactly one ACTIVE
ledger row carrying the brand's score at stake time. -/
theorem c3_stake_spec (s : Store) (uid bid : ℕ) (amount : ℤ) (bes : ℚ)
    (thesis : String) :
    (s.points_balance < amount →
      confirmStake s uid bid amount bes thesis =
        (s, some .insufficientFunds)) ∧
    (0 < amount → amount ≤ s.points_balance →
      confirmStake s uid bid amount bes thesis =
        ({ points_balance := s.points_balance - amount,
           ledger := s.ledger ++
             [{ user_id := uid, brand_id := bid, amount_staked := amount,
                entry_bes := bes, thesis_tag := thesis,
                status := .ACTIVE }] },
         none)) := by
  constructor
  · intro h
    simp only [confirmStake]
    rw [if_neg (by omega)]
  · intro _ h2
    simp only [confirmStake]
    rw [if_pos h2]

/-- Witness for C3: a stake of 100 against a balance of 50 is rejected
without effect; a stake of 100 against a balance of 1000 debits to 900 and
appends the ACTIVE row. -/
theorem c3_stake_spec_witness :
    (confirmStake { points_balance := 50, ledger := [] } 7 3 100 1 "Hype" =
      ({ points_balance := 50, ledger := [] }, some .insufficientFunds)) ∧
    (confirmStake { points_balance := 1000, ledger := [] } 7 3 100 1 "Hype" =
      ({ points_balance := 900,
         ledger := [{ user_id := 7, brand_id := 3, amount_staked := 100,
                      entry_bes := 1, thesis_tag := "Hype",
                      status := .ACTIVE }] },
       none)) :=
  ⟨(c3_stake_spec { points_balance := 50, ledger := [] } 7 3 100 1 "Hype").1
      (by decide),
   (c3_stake_spec { points_balance := 1000, ledger := [] } 7 3 100 1 "Hype").2
      (by decide) (by decide)⟩

/-- A store with a single ACTIVE position of 100 points, as left by a
stake of 100 against a starting balance of 100. -/
def c2HoldingState : Store :=
  { points_balance := 0,
    ledger := [{ user_id := 7, brand_id := 3, amount_staked := 100,
                 entry_bes := 1, thesis_tag := "Hype", status := .ACTIVE }] }

/-- C2 counterexample: the sell widget admits amount 0
(`min_value=0`), and the handler accepts it: with 100 points actively
staked, Liquidate of 0 succeeds and appends a row, although the claimed
precondition `0 < amount` says it must fail. -/
theorem c2_zero_amount_counterexample :
    0 < totalInvested c2HoldingState 7 3 ∧
    (confirmSell c2HoldingState 7 3 0 1).2 = none ∧
    (confirmSell c2HoldingState 7 3 0 1).1.ledger.length =
      c2HoldingState.ledger.length + 1 := by decide

/-- C2 amended: precondition `0 ≤ amount ≤ active total` (amount 0 is
accepted: it credits nothing and appends a zero CLOSED row).  With no
active holdings the sell is rejected without effect; with holdings, an
amount above the active total is rejected without effect; within bounds
the balance is credited by exactly the amount and exactly one CLOSED
`CASH_OUT` row with `amount_staked = -amount` and the brand's current
score is appended, previously written rows unchanged. -/
theorem c2_liquidate_spec_amended (s : Store) (uid bid : ℕ) (amount : ℤ)
    (bes : ℚ) :
    (totalInvested s uid bid = 0 →
      confirmSell s uid bid amount bes = (s, some .noHoldings)) ∧
    (0 < totalInvested s uid bid → totalInvested s uid bid < amount →
      confirmSell s uid bid amount bes = (s, some .exceedsHoldings)) ∧
    (0 < totalInvested s uid bid → 0 ≤ amount →
      amount ≤ totalInvested s uid bid →
      confirmSell s uid bid amount bes =
        ({ points_balance := s.points_balance + amount,
           ledger := s.ledger ++
             [{ user_id := uid, brand_id := bid, amount_staked := -amount,
                entry_bes := bes, thesis_tag := "CASH_OUT",
                status := .CLOSED }] },
         none)) := by
  refine ⟨?_, ?_, ?_⟩
  · intro h
    simp only [confirmSell]
    rw [if_neg (by omega)]
  · intro h1 h2
    simp only [confirmSell]
    rw [if_pos h1, if_neg (by omega)]
  · intro h1 h2 h3
    simp only [confirmSell]
    rw [if_pos h1, if_pos ⟨h2, h3⟩]

/-- Witness for C2 amended, on an empty store and on `c2HoldingState`. -/
theorem c2_liquidate_spec_amended_witness :
    (confirmSell { points_balance := 5, ledger := [] } 7 3 4 1 =
      ({ points_balance := 5, ledger := [] }, some .noHoldings)) ∧
    (confirmSell c2HoldingState 7 3 200 1 =
      (c2HoldingState, some .exceedsHoldings)) ∧
    (confirmSell c2HoldingState 7 3 50 1 =
      ({ points_balance := c2HoldingState.points_balance + 50,
         ledger := c2HoldingState.ledger ++
           [{ user_id := 7, brand_id := 3, amount_staked := -50,
              entry_bes := 1, thesis_tag := "CASH_OUT",
              status := .CLOSED }] },
       none)) :=
  ⟨(c2_liquidate_spec_amended { points_balance := 5, ledger := [] }
        7 3 4 1).1 (by decide),
   (c2_liquidate_spec_amended c2HoldingState 7 3 200 1).2.1
      (by decide) (by decide),
   (c2_liquidate_spec_amended c2HoldingState 7 3 50 1).2.2
      (by decide) (by decide) (by decide)⟩

/-- The store after staking 100 from a starting balance of 100. -/
def c1AfterStake : Store :=
  (confirmStake { points_balance := 100, ledger := [] } 7 3 100 1 "Hype").1

/-- The first full liquidation of that position. -/
def c1FirstSell : Store × Option TradeError :=
  confirmSell c1AfterStake 7 3 100 1

/-- A second liquidation of the very same position. -/
def c1SecondSell : Store × Option TradeError :=
  confirmSell c1FirstSell.1 7 3 100 1

/-- C1 (code bug): the sell handler appends its offsetting CLOSED row but
never updates the status of the position it closes — after a full
liquidation the staked row is still ACTIVE, the holdings query still
reports 100, and a second full liquidation of the same principal succeeds,
leaving a balance of 200 from an initial 100. -/
theorem c1_double_liquidation_bug :
    c1FirstSell.2 = none ∧
    (∀ e ∈ c1FirstSell.1.ledger, e.amount_staked = 100 →
      e.status = .ACTIVE) ∧
    totalInvested c1FirstSell.1 7 3 = 100 ∧
    c1SecondSell.2 = none ∧
    c1SecondSell.1.points_balance = 200 := by decide

/-- The two-write stake with the ledger insert succeeding and the balance
update failing. -/
def c4StakeHalf : Store :=
  confirmStakeTwoWrites true false { points_balance := 100, ledger := [] }
    7 3 100 1 "Hype"

/-- The two-write sell with the balance update succeeding and the ledger
insert failing, on a store holding one ACTIVE position of 100. -/
def c4SellHalf : Store :=
  confirmSellTwoWrites true false c2HoldingState 7 3 100 1

/-- C4 (code bug): the balance mutation and the ledger append are two
independent store writes with no transaction: if the stake's balance
update fails after its ledger insert succeeded, the ACTIVE row is in the
ledger while the balance is untouched; if the sell's ledger insert fails
after its balance update succeeded, the balance is credited with no
offsetting row. -/
theorem c4_nonatomic_write_bug :
    c4StakeHalf.points_balance = 100 ∧
    c4StakeHalf.ledger.length = 1 ∧
    (c4StakeHalf.ledger.map fun e => e.status) = [.ACTIVE] ∧
    c4SellHalf.points_balance = c2HoldingState.points_balance + 100 ∧
    c4SellHalf.ledger.length = c2HoldingState.ledger.length := by decide

/-- The first of two concurrent stakes of 100, both of which read the
page-load snapshot balance 100 before either commits. -/
def c10FirstCommit : Store × Option TradeError :=
  stakeFromSnapshot 100 { points_balance := 100, ledger := [] }
    7 3 100 1 "Hype"

/-- The second concurrent stake, committing after the first but still
holding the stale snapshot balance 100. -/
def c10SecondCommit : Store × Option TradeError :=
  stakeFromSnapshot 100 c10FirstCommit.1 7 3 100 1 "Hype"

/-- C10 (code bug): two concurrent stakes of 100 against a balance of 100
can both pass the `points_balance >= amount` check against the stale
snapshot and both commit: neither is rejected, 200 points end up ACTIVE in
the ledger, and the stored balance is 0 — only 100 was ever deducted. -/
theorem c10_concurrent_stake_bug :
    c10FirstCommit.2 = none ∧
    c10SecondCommit.2 = none ∧
    c10SecondCommit.1.points_balance = 0 ∧
    totalInvested c10SecondCommit.1 7 3 = 200 := by decide

/-- Each iteration of the batch loop performs exactly one fetch attempt,
whether the fetch fails, returns an empty frame, or succeeds. -/
theorem syncStep_snd (acc : (String → Option Metrics) × ℕ)
    (fb : Option (List (String × List ℚ)) × List String) :
    (syncStep acc fb).2 = acc.2 + 1 := by
  rcases fb with ⟨o, b⟩
  cases o with
  | none => rfl
  | some data =>
      simp only [syncStep]
      split <;> rfl

/-- The metrics map produced by one iteration depends only on the incoming
metrics map, not on the attempt count. -/
theorem syncStep_fst_congr (p q : (String → Option Metrics) × ℕ)
    (h : p.1 = q.1) (fb : Option (List (String × List ℚ)) × List String) :
    (syncStep p fb).1 = (syncStep q fb).1 := by
  rcases fb with ⟨o, b⟩
  cases o with
  | none => exact h
  | some data =>
      simp only [syncStep]
      split
      · exact h
      · rw [h]

theorem foldl_syncStep_snd (fs : List (Option (List (String × List ℚ)) × List String)) :
    ∀ p, (fs.foldl syncStep p).2 = p.2 + fs.length := by
  induction fs with
  | nil => intro p; simp
  | cons x xs ih =>
      intro p
      rw [List.foldl_cons, ih, syncStep_snd, List.length_cons]
      omega

theorem foldl_syncStep_fst_congr
    (fs : List (Option (List (String × List ℚ)) × List String)) :
    ∀ p q, p.1 = q.1 → (fs.foldl syncStep p).1 = (fs.foldl syncStep q).1 := by
  induction fs with
  | nil => intro p q h; exact h
  | cons x xs ih =>
      intro p q h
      exact ih _ _ (syncStep_fst_congr p q h x)

/-- C9 amended: a failed batch fetch is caught (a cooldown is slept) and
the run proceeds, but the batch is not retried — every batch is fetched
exactly once, so the attempt count equals the number of batches — and the
failed batch's keywords are dropped from the metrics map: the run's result
is exactly that of the run without the failed batch. -/
theorem c9_failed_batch_amended :
    (∀ fetches, (get_growth_metrics fetches).2 = fetches.length) ∧
    (∀ pre b post,
      (get_growth_metrics (pre ++ (none, b) :: post)).1 =
        (get_growth_metrics (pre ++ post)).1) := by
  constructor
  · intro fs
    rw [get_growth_metrics, foldl_syncStep_snd]
    simp
  · intro pre b post
    simp only [get_growth_metrics]
    rw [List.foldl_append, List.foldl_append, List.foldl_cons]
    exact foldl_syncStep_fst_congr post _ _ rfl

/-- A successful frame for the second batch: the anchor column and the
column of keyword "E", three samples each (so "E" resolves through the
insufficient-data policy to the zero-metrics record). -/
def c9Frame : List (String × List ℚ) :=
  [(ANCHOR_KEYWORD, [50, 50, 50]), ("E", [10, 20, 30])]

/-- A two-batch run whose first batch fetch raises and whose second
succeeds. -/
def c9Fetches : List (Option (List (String × List ℚ)) × List String) :=
  [(none, ["A", "B", "C", "D"]), (some c9Frame, ["E"])]

/-- C9 counterexample: when the first batch's fetch fails, its keywords get
no metrics record at all — keyword "A" resolves to `none`, not to the
zero-metrics record the claim promises — while the failed batch was
attempted exactly once (no retry: 2 attempts for 2 batches) and the second
batch is still processed ("E" receives its record). -/
theorem c9_dropped_batch_counterexample :
    (get_growth_metrics c9Fetches).1 "A" = none ∧
    (get_growth_metrics c9Fetches).1 "E" =
      some { volume := 0, pop := 0, yoy := 0 } ∧
    (get_growth_metrics c9Fetches).2 = c9Fetches.length := by
  refine ⟨by decide, by decide, by decide⟩
